import Mathlib

/- ═══════════════════════════════════════════════════════════════════════════
   Shallow embedding of the alerting and subscription-delivery pipeline of
   server.js (ORBITAL COMMAND v3.0).

   Conventions:
   * JavaScript numbers are modelled by ℚ (data values) and Int (millisecond
     timestamps from Date.now()).
   * JavaScript strings are Lean String; the JS string primitives used by the
     code (endsWith, split, substring, lexicographic >=, first-occurrence
     replace) are re-implemented below on the character list with exact JS
     semantics.
   * null/undefined values are Option; JS string truthiness (undefined and ""
     are falsy) is the function truthy.
   * Every external effect (upstream fetch, LINE push outcome, Google-Sheets
     row write outcome) is passed in as an explicit argument, and every state
     mutation is explicit state passing.
   ═══════════════════════════════════════════════════════════════════════════ -/

/-- JS String.prototype.endsWith. -/
def jsEndsWith (s suffixStr : String) : Bool :=
  suffixStr.data.isSuffixOf s.data

/-- Character-level splitter behind jsSplit: JS String.prototype.split with a
single-character separator. -/
def jsSplitChar (sep : Char) : List Char → List (List Char)
  | [] => [[]]
  | c :: cs =>
    if c = sep then [] :: jsSplitChar sep cs
    else
      match jsSplitChar sep cs with
      | [] => [[c]]
      | p :: ps => (c :: p) :: ps

/-- JS String.prototype.split for a one-character separator string. -/
def jsSplit (s : String) (sep : Char) : List String :=
  (jsSplitChar sep s.data).map List.asString

/-- JS string comparison a < b (lexicographic on code units). -/
def jsStrLtb : List Char → List Char → Bool
  | [], [] => false
  | [], _ :: _ => true
  | _ :: _, [] => false
  | a :: as, b :: bs => if a = b then jsStrLtb as bs else decide (a < b)

/-- JS string comparison a >= b. -/
def jsStrGe (a b : String) : Bool :=
  ! jsStrLtb a.data b.data

/-- JS String.prototype.substring 0 n. -/
def jsTake (s : String) (n : Nat) : String :=
  (s.data.take n).asString

/-- JS String.prototype.replace with a plain (non-regex) pattern: replaces the
first occurrence only. -/
def jsReplaceFirstAux (pat rep : List Char) : List Char → List Char
  | [] => []
  | c :: cs =>
    if pat.isPrefixOf (c :: cs) then rep ++ (c :: cs).drop pat.length
    else c :: jsReplaceFirstAux pat rep cs

/-- JS String.prototype.replace (first occurrence). -/
def jsReplaceFirst (s pat rep : String) : String :=
  (jsReplaceFirstAux pat.data rep.data s.data).asString

/-- JS truthiness for an optional string: undefined and "" are falsy. -/
def truthy : Option String → Bool
  | none => false
  | some s => ! (s = "")

/-- JS Math.round on a rational. -/
def jsRound (q : ℚ) : Int :=
  ⌊q + 1 / 2⌋

/-- Two-digit zero padding, as produced by toLocaleTimeString with a 2-digit
hour/minute and hour12 false. -/
def pad2 (n : Nat) : String :=
  if n < 10 then "0" ++ toString n else toString n

/-- The "HH:mm" local time string computed at the top of dailyPush. -/
def fmtTime (h m : Nat) : String :=
  pad2 h ++ ":" ++ pad2 m

/- ═══════════════════════════════════════════════════════════════════════════
   Data model: the aggregated space-weather snapshot (getSpaceWeather).
   ═══════════════════════════════════════════════════════════════════════════ -/

structure KpRec where
  kp : ℚ
  level : String
  gLevel : String
deriving DecidableEq

structure SolarWindRec where
  speed : ℚ
  density : ℚ
  temperature : ℚ
deriving DecidableEq

structure MagFieldRec where
  bz : ℚ
  bt : ℚ
  bx : ℚ
  by_ : ℚ
deriving DecidableEq

structure XrayRec where
  flux : ℚ
  flareClass : String
  fullClass : String
deriving DecidableEq

structure ProtonRec where
  flux : ℚ
  sLevel : String
deriving DecidableEq

structure ElectronRec where
  flux : ℚ
deriving DecidableEq

structure IssRec where
  lat : ℚ
  lon : ℚ
  altitude : ℚ
  velocity : ℚ
  location : String
deriving DecidableEq

structure CmeRec where
  time : String
  speed : ℚ
  cmeType : String
deriving DecidableEq

structure FlareRec where
  classType : String
  peakTime : String
deriving DecidableEq

/-- The per-region aurora visibility percentages computed in getSpaceWeather. -/
structure AuroraChances where
  iceland : Int
  norway : Int
  finland : Int
  canada : Int
  alaska : Int
  hokkaido : Int
  japan : Int
  scotland : Int
  newZealand : Int
deriving DecidableEq

/-- A successfully aggregated snapshot (the result object built by
getSpaceWeather when Promise.all succeeds).  The ISO timestamp string is
modelled by the epoch milliseconds it renders. -/
structure Snapshot where
  timestamp : Int
  alertLevel : String
  alertMessages : List String
  solarWind : SolarWindRec
  magneticField : MagFieldRec
  kp : KpRec
  xray : XrayRec
  proton : ProtonRec
  electron : ElectronRec
  cme : List CmeRec
  flares : List FlareRec
  iss : Option IssRec
  aurora : AuroraChances
deriving DecidableEq

/-- The nine upstream fetch results consumed by getSpaceWeather; each fetcher
returns null (none) on failure. -/
structure AggregateInput where
  solarWind : Option SolarWindRec
  magField : Option MagFieldRec
  kp : Option KpRec
  xray : Option XrayRec
  proton : Option ProtonRec
  electron : Option ElectronRec
  cme : Option (List CmeRec)
  nasaFlares : Option (List FlareRec)
  iss : Option IssRec
deriving DecidableEq

/-- What getSpaceWeather hands back to a caller: either the snapshot object
(success true) or the error sentinel { success : false, error }. -/
inductive SWResult where
  | ok (snapshot : Snapshot)
  | err (error : String)
deriving DecidableEq

/-- kpValue as computed in getSpaceWeather: kp?.kp || 2, so an absent record
and a (falsy) 0 value both degrade to 2. -/
def kpValueOf (kp? : Option KpRec) : ℚ :=
  match kp? with
  | some k => if k.kp = 0 then 2 else k.kp
  | none => 2

/-- The aurora-chance block of getSpaceWeather. -/
def auroraChances (kpValue : ℚ) : AuroraChances where
  iceland := min 95 (jsRound (kpValue * 15 + 40))
  norway := min 90 (jsRound (kpValue * 15 + 30))
  finland := min 85 (jsRound (kpValue * 15 + 20))
  canada := min 80 (jsRound (kpValue * 15 + 10))
  alaska := min 75 (jsRound (kpValue * 15 + 5))
  hokkaido := max 5 (jsRound (kpValue * 15 - 30))
  japan := max 5 (jsRound (kpValue * 15 - 30))
  scotland := max 10 (jsRound (kpValue * 15 - 20))
  newZealand := max 5 (jsRound (kpValue * 15 - 35))

/-- The alert-level derivation of getSpaceWeather (the three sequential
mutation blocks over alertLevel / alertMessages). -/
def alertAssessment (kp? : Option KpRec) (xray? : Option XrayRec)
    (proton? : Option ProtonRec) : String × List String :=
  let kpValue := kpValueOf kp?
  let gLevel := match kp? with | some k => k.gLevel | none => ""
  let s1 : String × List String :=
    if kpValue ≥ 7 then
      ("severe", ["🔴 強烈地磁風暴 G" ++ jsReplaceFirst gLevel "G" ""])
    else if kpValue ≥ 5 then
      ("warning", ["🟠 地磁風暴 " ++ gLevel])
    else ("normal", [])
  let s2 : String × List String :=
    match xray? with
    | some x =>
      if x.flareClass = "X" then
        ("severe", s1.2 ++ ["🔴 X 級太陽閃焰 " ++ x.fullClass])
      else if x.flareClass = "M" then
        ((if s1.1 = "normal" then "warning" else s1.1),
         s1.2 ++ ["🟠 M 級太陽閃焰 " ++ x.fullClass])
      else s1
    | none => s1
  let s3 : String × List String :=
    match proton? with
    | some p =>
      if p.sLevel ≠ "" ∧ p.sLevel ≠ "S0" then
        ((if jsStrGe p.sLevel "S3" then "severe"
          else if s2.1 = "normal" then "warning" else s2.1),
         s2.2 ++ ["☢️ 輻射風暴 " ++ p.sLevel])
      else s2
    | none => s2
  s3

/-- The result object assembled by getSpaceWeather on a successful aggregate
fetch, with every documented default sub-record. -/
def buildSnapshot (now : Int) (inp : AggregateInput) : Snapshot :=
  let a := alertAssessment inp.kp inp.xray inp.proton
  { timestamp := now
    alertLevel := a.1
    alertMessages := a.2
    solarWind := inp.solarWind.getD ⟨400, 4, 100000⟩
    magneticField := inp.magField.getD ⟨0, 5, 0, 0⟩
    kp := inp.kp.getD ⟨2, "quiet", "G0"⟩
    xray := inp.xray.getD ⟨1 / 10000000, "B", "B1.0"⟩
    proton := inp.proton.getD ⟨1, "S0"⟩
    electron := inp.electron.getD ⟨10000⟩
    cme := inp.cme.getD []
    flares := inp.nasaFlares.getD []
    iss := inp.iss
    aurora := auroraChances (kpValueOf inp.kp) }

/- ═══════════════════════════════════════════════════════════════════════════
   Reading cache (cachedSpaceWeather / cacheTime / getSpaceWeather).
   ═══════════════════════════════════════════════════════════════════════════ -/

def CACHE_DURATION : Int := 60 * 1000

structure CacheState where
  cachedSpaceWeather : Option Snapshot
  cacheTime : Int
deriving DecidableEq

/-- The fetch-and-store branch of getSpaceWeather.  The aggregation
collaborator (the Promise.all over the nine fetchers) is an explicit
argument: Except.ok is a successful aggregate, Except.error is a thrown
exception. -/
def getSpaceWeatherFetch (st : CacheState) (now : Int)
    (fetchResult : Except String AggregateInput) :
    SWResult × CacheState × Bool :=
  match fetchResult with
  | .ok inp =>
    let result := buildSnapshot now inp
    (.ok result, ⟨some result, now⟩, true)
  | .error e => (.err e, st, true)

/-- getSpaceWeather(forceRefresh).  Returns (result, new cache state,
whether the upstream aggregation was invoked). -/
def getSpaceWeather (st : CacheState) (now : Int) (forceRefresh : Bool)
    (fetchResult : Except String AggregateInput) :
    SWResult × CacheState × Bool :=
  match st.cachedSpaceWeather with
  | some c =>
    if forceRefresh = false ∧ now - st.cacheTime < CACHE_DURATION then
      (.ok c, st, false)
    else getSpaceWeatherFetch st now fetchResult
  | none => getSpaceWeatherFetch st now fetchResult

/-- A sequence of getSpaceWeather calls threaded through the cache state;
each call carries its Date.now() value, its forceRefresh flag and the
aggregation outcome it would see.  Returns the final state and, per call,
the result and whether that call fetched. -/
def runGetSpaceWeather (st : CacheState) :
    List (Int × Bool × Except String AggregateInput) →
    CacheState × List (SWResult × Bool)
  | [] => (st, [])
  | (now, force, fetch) :: rest =>
    let r := getSpaceWeather st now force fetch
    let rr := runGetSpaceWeather r.2.1 rest
    (rr.1, (r.1, r.2.2) :: rr.2)

/- ═══════════════════════════════════════════════════════════════════════════
   Subscription store (the LINE訂閱 sheet and its operations).
   ═══════════════════════════════════════════════════════════════════════════ -/

/-- One row of the LINE訂閱 sheet: 用戶ID, 類型, 名稱, 訂閱時間, 推播時間,
狀態, 上次推播. -/
structure SubRow where
  userId : String
  subType : String
  name : String
  subscribedAt : String
  pushTime : String
  status : String
  lastPush : String
deriving DecidableEq

/-- addSubscription: scan for the first row matching (userId, type); if found,
update its 推播時間 and 狀態 in place; otherwise append a fresh row. -/
def addSubscription (userId subType name : String) (pushTime : Option String)
    (nowIso : String) : List SubRow → List SubRow
  | [] => [⟨userId, subType, name, nowIso, pushTime.getD "", "啟用", ""⟩]
  | r :: rs =>
    if r.userId = userId ∧ r.subType = subType then
      { r with pushTime := pushTime.getD "", status := "啟用" } :: rs
    else r :: addSubscription userId subType name pushTime nowIso rs

/-- removeSubscription: set 狀態 to 停用 on every row of the user, or only on
the rows of the named type when one is given. -/
def removeSubscription (userId : String) (subType? : Option String)
    (rows : List SubRow) : List SubRow :=
  rows.map fun r =>
    if r.userId = userId ∧ (subType?.isNone ∨ subType? = some r.subType) then
      { r with status := "停用" }
    else r

/-- A (userId, pushTime) pair returned by getSubscribersByType. -/
structure Subscriber where
  userId : String
  pushTime : String
deriving DecidableEq

/-- getSubscribersByType: the active rows of the given type. -/
def getSubscribersByType (subType : String) (rows : List SubRow) :
    List Subscriber :=
  (rows.filter fun r => decide (r.subType = subType ∧ r.status = "啟用")).map
    fun r => ⟨r.userId, r.pushTime⟩

/- ═══════════════════════════════════════════════════════════════════════════
   Scheduled dispatcher (dailyPush).
   ═══════════════════════════════════════════════════════════════════════════ -/

structure DailyPushResult where
  delivered : List String
  refreshed : Bool
deriving DecidableEq

/-- dailyPush: no-op off the hour; on the hour, push the full report to the
active daily subscribers whose 推播時間 equals the current hour label,
force-refreshing the cache only when that list is non-empty.  Returns the
users pushed to (in order) and whether getSpaceWeather(true) was called. -/
def dailyPush (currentTime : String) (rows : List SubRow) : DailyPushResult :=
  if jsEndsWith currentTime ":00" = false then ⟨[], false⟩
  else
    let hour := ((jsSplit currentTime ':').headD "") ++ ":00"
    let subscribers := getSubscribersByType "daily" rows
    let targetUsers := subscribers.filter fun s => decide (s.pushTime = hour)
    if targetUsers.length = 0 then ⟨[], false⟩
    else ⟨targetUsers.map (·.userId), true⟩

/- ═══════════════════════════════════════════════════════════════════════════
   Alert evaluator (lastAlerts / checkAlerts).
   ═══════════════════════════════════════════════════════════════════════════ -/

/-- The process-wide lastAlerts map of per-topic last-dispatch timestamps. -/
structure LastAlerts where
  kp : Int
  flare : Int
  cme : Int
  radiation : Int
deriving DecidableEq

def ALERT_COOLDOWN : Int := 60 * 60 * 1000

/-- The two alert topics checkAlerts can actually dispatch. -/
inductive AlertTopic where
  | kp
  | flare
deriving DecidableEq

/-- The kp sub-record a caller of getSpaceWeather sees: present on a snapshot,
undefined on the error sentinel. -/
def kpOf : SWResult → Option KpRec
  | .ok s => some s.kp
  | .err _ => none

/-- The xray sub-record seen through the optional chain. -/
def xrayOf : SWResult → Option XrayRec
  | .ok s => some s.xray
  | .err _ => none

/-- spaceWeather.kp?.kp >= 5 (false when the chain is undefined). -/
def kpAlertCond (sw : SWResult) : Bool :=
  match kpOf sw with
  | some k => decide (k.kp ≥ 5)
  | none => false

/-- spaceWeather.xray?.flareClass === 'X'. -/
def flareAlertCond (sw : SWResult) : Bool :=
  match xrayOf sw with
  | some x => decide (x.flareClass = "X")
  | none => false

/-- One alert dispatch: the pass timestamp, the topic, and per subscriber the
attempted push together with the outcome linePush reported (which the code
discards). -/
structure AlertEvent where
  time : Int
  topic : AlertTopic
  deliveries : List (String × Bool)
deriving DecidableEq

/-- The Kp >= 5 block of checkAlerts. -/
def checkKpAlert (pushResult : String → Bool) (st : LastAlerts) (now : Int)
    (sw : SWResult) (rows : List SubRow) : LastAlerts × List AlertEvent :=
  if kpAlertCond sw = true ∧ now - st.kp > ALERT_COOLDOWN then
    let subscribers := getSubscribersByType "aurora" rows
    if subscribers.length > 0 then
      ({ st with kp := now },
       [⟨now, .kp, subscribers.map fun u => (u.userId, pushResult u.userId)⟩])
    else (st, [])
  else (st, [])

/-- The X-class flare block of checkAlerts. -/
def checkFlareAlert (pushResult : String → Bool) (st : LastAlerts) (now : Int)
    (sw : SWResult) (rows : List SubRow) : LastAlerts × List AlertEvent :=
  if flareAlertCond sw = true ∧ now - st.flare > ALERT_COOLDOWN then
    let subscribers := getSubscribersByType "flare" rows
    if subscribers.length > 0 then
      ({ st with flare := now },
       [⟨now, .flare, subscribers.map fun u => (u.userId, pushResult u.userId)⟩])
    else (st, [])
  else (st, [])

/-- One checkAlerts pass over a freshly fetched snapshot: the two topic blocks
run sequentially over the shared lastAlerts state. -/
def checkAlerts (pushResult : String → Bool) (st : LastAlerts) (now : Int)
    (sw : SWResult) (rows : List SubRow) : LastAlerts × List AlertEvent :=
  let r1 := checkKpAlert pushResult st now sw rows
  let r2 := checkFlareAlert pushResult r1.1 now sw rows
  (r2.1, r1.2 ++ r2.2)

/-- The inputs one alert-check pass observes: its Date.now(), the result of
getSpaceWeather(true), the subscription sheet, and the push outcomes. -/
structure AlertPass where
  time : Int
  sw : SWResult
  rows : List SubRow
  pushResult : String → Bool

/-- A run of checkAlerts passes threaded through lastAlerts. -/
def runCheckAlerts (st : LastAlerts) : List AlertPass → LastAlerts × List AlertEvent
  | [] => (st, [])
  | p :: ps =>
    let r1 := checkAlerts p.pushResult st p.time p.sw p.rows
    let rr := runCheckAlerts r1.1 ps
    (rr.1, r1.2 ++ rr.2)

/-- The lastAlerts entry belonging to a topic. -/
def lastOf (st : LastAlerts) : AlertTopic → Int
  | .kp => st.kp
  | .flare => st.flare

/-- The threshold condition of a topic, as checkAlerts evaluates it. -/
def topicThreshold : AlertTopic → SWResult → Bool
  | .kp, sw => kpAlertCond sw
  | .flare, sw => flareAlertCond sw

/-- The sheet 類型 value a topic's subscribers are stored under. -/
def topicKey : AlertTopic → String
  | .kp => "aurora"
  | .flare => "flare"

/-- The dispatch times of one topic inside an event list. -/
def eventTimes (t : AlertTopic) (evs : List AlertEvent) : List Int :=
  (evs.filter fun e => decide (e.topic = t)).map (·.time)

/-- The complete firing condition of one topic in one checkAlerts pass:
threshold crossed, cooldown elapsed, and at least one active subscriber. -/
def fireCond (t : AlertTopic) (st : LastAlerts) (now : Int) (sw : SWResult)
    (rows : List SubRow) : Prop :=
  topicThreshold t sw = true ∧ now - lastOf st t > ALERT_COOLDOWN ∧
    (getSubscribersByType (topicKey t) rows).length > 0

instance (t : AlertTopic) (st : LastAlerts) (now : Int) (sw : SWResult)
    (rows : List SubRow) : Decidable (fireCond t st now sw rows) :=
  inferInstanceAs (Decidable (_ ∧ _ ∧ _))

/- ═══════════════════════════════════════════════════════════════════════════
   Notification fan-out (linePush) and its 推播紀錄 delivery log.
   ═══════════════════════════════════════════════════════════════════════════ -/

/-- One row of the 推播紀錄 sheet: 時間, 用戶ID, 類型, 內容, 狀態. -/
structure PushLogRow where
  time : String
  userId : String
  logType : String
  content : String
  status : String
deriving DecidableEq

/-- What one linePush call did: whether it reported success, the push request
actually sent to the channel (none when no request went out), and the
delivery-log rows appended. -/
structure LinePushOut where
  ok : Bool
  sent : Option (String × List String)
  log : List PushLogRow
deriving DecidableEq

/-- Content preview column: msgArray[0]?.text?.substring(0,50) with the
FlexMessage fallback. -/
def pushPreview (msgs : List String) : String :=
  match msgs.head? with
  | some t => if jsTake t 50 = "" then "FlexMessage" else jsTake t 50
  | none => "FlexMessage"

/-- linePush userId messages.  token is LINE_CHANNEL_ACCESS_TOKEN; docOk says
the Google-Sheets handle is connected; sheetOk says the 推播紀錄 sheet
exists; pushOk is the channel outcome (false covers both a non-ok HTTP status
and a thrown fetch error, since both return false before any log write). -/
def linePush (token : Option String) (docOk sheetOk pushOk : Bool)
    (nowIso userId : String) (messages : List String) : LinePushOut :=
  if truthy token = false then ⟨false, none, []⟩
  else
    let request := (userId, messages.take 5)
    if pushOk = false then ⟨false, some request, []⟩
    else
      if docOk ∧ sheetOk then
        ⟨true, some request,
         [⟨nowIso, jsTake userId 10 ++ "...", "push", pushPreview messages, "成功"⟩]⟩
      else ⟨true, some request, []⟩

/- ═══════════════════════════════════════════════════════════════════════════
   Snapshot recorder (recordData).
   ═══════════════════════════════════════════════════════════════════════════ -/

/-- The four categories recordData writes, in source order. -/
inductive RecCat where
  | solarWind
  | kp
  | iss
  | proton
deriving DecidableEq

def solarWindOf : SWResult → Option SolarWindRec
  | .ok s => some s.solarWind
  | .err _ => none

def kpRecOf : SWResult → Option KpRec
  | .ok s => some s.kp
  | .err _ => none

def issOf : SWResult → Option IssRec
  | .ok s => s.iss
  | .err _ => none

def protonOf : SWResult → Option ProtonRec
  | .ok s => some s.proton
  | .err _ => none

/-- The categories whose sub-record is present on the data recordData sees,
in the order the code visits them. -/
def presentCats (data : SWResult) : List RecCat :=
  (match solarWindOf data with | some _ => [RecCat.solarWind] | none => []) ++
  (match kpRecOf data with | some _ => [RecCat.kp] | none => []) ++
  (match issOf data with | some _ => [RecCat.iss] | none => []) ++
  (match protonOf data with | some _ => [RecCat.proton] | none => [])

/-- The addRow attempts made inside recordData's single try block: categories
are written in order until one write throws; the thrown category (if any) is
returned as the caught error. -/
def recordAttempts (writeOk : RecCat → Bool) : List RecCat → List RecCat × Option RecCat
  | [] => ([], none)
  | c :: cs =>
    if writeOk c then
      let r := recordAttempts writeOk cs
      (c :: r.1, r.2)
    else ([c], some c)

/-- recordData: a no-op without a Sheets connection; otherwise one guarded
pass over the present categories.  Returns (addRow calls made, the category
whose write threw, if any — its error is logged and swallowed). -/
def recordData (docOk : Bool) (data : SWResult) (writeOk : RecCat → Bool) :
    List RecCat × Option RecCat :=
  if docOk = false then ([], none)
  else recordAttempts writeOk (presentCats data)

/- ═══════════════════════════════════════════════════════════════════════════
   Webhook signature validation (validateLineSignature and POST /webhook).
   ═══════════════════════════════════════════════════════════════════════════ -/

/-- validateLineSignature body signature.  The HMAC-SHA256/base64 primitive of
the crypto module is an abstract argument; signature is the x-line-signature
header (none when absent). -/
def validateLineSignature (hmacSha256 : String → String → String)
    (secret : Option String) (body : String) (signature : Option String) : Bool :=
  match secret with
  | none => true
  | some s =>
    if s = "" then true
    else decide (some (hmacSha256 s body) = signature)

/-- The outcome of one POST /webhook request: HTTP status and the events the
handler loop processed. -/
structure WebhookResult where
  status : Nat
  processed : List String
deriving DecidableEq

/-- The /webhook handler: reject nothing when no access token is configured
(but skip the event loop), return 401 on a failed signature check when a
secret is configured, and otherwise process every event. -/
def webhookHandler (token secret : Option String)
    (hmacSha256 : String → String → String) (rawBody : String)
    (signature : Option String) (events : List String) : WebhookResult :=
  if truthy token = false then ⟨200, []⟩
  else if truthy secret = true ∧
      validateLineSignature hmacSha256 secret rawBody signature = false then
    ⟨401, []⟩
  else ⟨200, events⟩

/- ═══════════════════════════════════════════════════════════════════════════
   Concrete inputs used by witnesses and counterexamples.
   ═══════════════════════════════════════════════════════════════════════════ -/

/-- An aggregate fetch where every upstream source failed. -/
def emptyInput : AggregateInput :=
  ⟨none, none, none, none, none, none, none, none, none⟩

/-- An aggregate fetch carrying a Kp 6 storm reading. -/
def stormInput : AggregateInput :=
  { emptyInput with kp := some ⟨6, "storm", "G2"⟩ }

/-- An aggregate fetch where every category recordData writes is present. -/
def fullInput : AggregateInput :=
  { emptyInput with iss := some ⟨25, 121, 420, 27600, "Taiwan"⟩ }

/-- A sheet holding one active aurora subscriber. -/
def auroraRows : List SubRow :=
  [⟨"Uaurora1", "aurora", "極光警報 (Kp≥5)", "2026-01-01T00:00:00Z", "", "啟用", ""⟩]

/-- A write oracle whose first category write throws. -/
def writeFail0 : RecCat → Bool
  | .solarWind => false
  | _ => true

/- ═══════════════════════════════════════════════════════════════════════════
   Helper lemmas: the alert-level derivation (claim C10).
   ═══════════════════════════════════════════════════════════════════════════ -/

/-- The invariant tying the derived level to the derived message list. -/
def AlertInv (s : String × List String) : Prop :=
  (s.1 = "normal" ∨ s.1 = "warning" ∨ s.1 = "severe") ∧ (s.1 = "normal" ↔ s.2 = [])

theorem alertAssessment_inv (kp? : Option KpRec) (xray? : Option XrayRec)
    (proton? : Option ProtonRec) : AlertInv (alertAssessment kp? xray? proton?) := by
  unfold alertAssessment AlertInv
  rcases xray? with _ | x <;> rcases proton? with _ | p <;>
    dsimp only <;> split_ifs <;> simp_all

/-- Claim C10: every successfully built snapshot has alertLevel in
  normal/warning/severe, and the level is normal exactly when the derived
  alertMessages list is empty. -/
theorem buildSnapshot_alertLevel_messages (now : Int) (inp : AggregateInput) :
    ((buildSnapshot now inp).alertLevel = "normal" ∨
     (buildSnapshot now inp).alertLevel = "warning" ∨
     (buildSnapshot now inp).alertLevel = "severe") ∧
    ((buildSnapshot now inp).alertLevel = "normal" ↔
     (buildSnapshot now inp).alertMessages = []) :=
  alertAssessment_inv inp.kp inp.xray inp.proton

/- ═══════════════════════════════════════════════════════════════════════════
   Reading cache: claims C3 and C4.
   ═══════════════════════════════════════════════════════════════════════════ -/

theorem getSpaceWeather_hit (st : CacheState) (c : Snapshot) (now : Int)
    (fetch : Except String AggregateInput)
    (hc : st.cachedSpaceWeather = some c)
    (h : now - st.cacheTime < CACHE_DURATION) :
    getSpaceWeather st now false fetch = (.ok c, st, false) := by
  unfold getSpaceWeather
  rw [hc]
  simp [h]

/-- Claim C3: calls with forceRefresh false inside the TTL window return the
  identical cached snapshot, change nothing and trigger no upstream fetch;
  a fetch happens exactly when the flag is set, the cache is absent or the
  cache is expired, and a successful fetch stores the result with the call's
  timestamp. -/
theorem getSpaceWeather_ttl_caching :
    (∀ (st : CacheState) (c : Snapshot)
       (calls : List (Int × Except String AggregateInput)),
       st.cachedSpaceWeather = some c →
       (∀ call ∈ calls, call.1 - st.cacheTime < CACHE_DURATION) →
       runGetSpaceWeather st (calls.map fun call => (call.1, false, call.2)) =
         (st, calls.map fun _ => (SWResult.ok c, false))) ∧
    (∀ (st : CacheState) (now : Int) (force : Bool)
       (fetch : Except String AggregateInput),
       ((getSpaceWeather st now force fetch).2.2 = true ↔
         (force = true ∨ st.cachedSpaceWeather = none ∨
          CACHE_DURATION ≤ now - st.cacheTime)) ∧
       (∀ inp, fetch = .ok inp → (getSpaceWeather st now force fetch).2.2 = true →
         getSpaceWeather st now force fetch =
           (.ok (buildSnapshot now inp),
            ⟨some (buildSnapshot now inp), now⟩, true))) := by
  constructor
  · intro st c calls hc hin
    induction calls with
    | nil => simp [runGetSpaceWeather]
    | cons call rest ih =>
      have h1 : call.1 - st.cacheTime < CACHE_DURATION := hin call (by simp)
      have hrest : ∀ call ∈ rest, call.1 - st.cacheTime < CACHE_DURATION := by
        intro q hq
        exact hin q (by simp [hq])
      simp only [List.map_cons, runGetSpaceWeather,
        getSpaceWeather_hit st c call.1 call.2 hc h1]
      simp [ih hrest]
  · intro st now force fetch
    constructor
    · unfold getSpaceWeather
      rcases hc : st.cachedSpaceWeather with _ | c
      · simp [getSpaceWeatherFetch]
        rcases fetch with inp | e <;> simp
      · dsimp only
        by_cases hf : force = false ∧ now - st.cacheTime < CACHE_DURATION
        · rw [if_pos hf]
          obtain ⟨hf1, hf2⟩ := hf
          subst hf1
          simp
          omega
        · rw [if_neg hf]
          have hge : CACHE_DURATION ≤ now - st.cacheTime ∨ force = true := by
            rcases Bool.eq_false_or_eq_true force with hb | hb
            · exact Or.inr hb
            · subst hb
              simp only [true_and, not_lt] at hf
              exact Or.inl hf
          rcases fetch with e | inp <;> simp [getSpaceWeatherFetch] <;> tauto
    · intro inp hfetch hfetched
      subst hfetch
      unfold getSpaceWeather at hfetched ⊢
      rcases hc : st.cachedSpaceWeather with _ | c
      · simp [getSpaceWeatherFetch]
      · rw [hc] at hfetched
        by_cases hf : force = false ∧ now - st.cacheTime < CACHE_DURATION
        · simp [hf] at hfetched
        · simp [hf, getSpaceWeatherFetch]

/-- Witness for claim C3 at a concrete cached state and two in-window calls. -/
theorem getSpaceWeather_ttl_caching_witness :
    runGetSpaceWeather ⟨some (buildSnapshot 0 emptyInput), 1000⟩
        (([(1500, Except.error "boom"), (2000, Except.error "down")] :
            List (Int × Except String AggregateInput)).map
          fun call => (call.1, false, call.2)) =
      (⟨some (buildSnapshot 0 emptyInput), 1000⟩,
       ([(1500, Except.error "boom"), (2000, Except.error "down")] :
           List (Int × Except String AggregateInput)).map
         fun _ => (SWResult.ok (buildSnapshot 0 emptyInput), false)) :=
  getSpaceWeather_ttl_caching.1 ⟨some (buildSnapshot 0 emptyInput), 1000⟩
    (buildSnapshot 0 emptyInput)
    [(1500, Except.error "boom"), (2000, Except.error "down")]
    rfl (by decide)

/-- Claim C4: when the aggregation throws on a pass that actually fetches,
  getSpaceWeather returns the { success false, error } sentinel and leaves
  both the cached snapshot and the cache timestamp untouched (the error is
  absorbed, never rethrown). -/
theorem getSpaceWeather_error_sentinel (st : CacheState) (now : Int)
    (force : Bool) (e : String)
    (hmiss : force = true ∨ st.cachedSpaceWeather = none ∨
      CACHE_DURATION ≤ now - st.cacheTime) :
    getSpaceWeather st now force (.error e) = (.err e, st, true) := by
  unfold getSpaceWeather
  rcases hc : st.cachedSpaceWeather with _ | c
  · simp [getSpaceWeatherFetch]
  · have hf : ¬(force = false ∧ now - st.cacheTime < CACHE_DURATION) := by
      rcases hmiss with h | h | h
      · simp [h]
      · simp [hc] at h
      · omega
    simp [hf, getSpaceWeatherFetch]

/-- Witness for claim C4: a forced refresh whose aggregation throws. -/
theorem getSpaceWeather_error_sentinel_witness :
    getSpaceWeather ⟨some (buildSnapshot 0 emptyInput), 1000⟩ 1500 true
        (.error "boom") =
      (.err "boom", ⟨some (buildSnapshot 0 emptyInput), 1000⟩, true) :=
  getSpaceWeather_error_sentinel ⟨some (buildSnapshot 0 emptyInput), 1000⟩
    1500 true "boom" (Or.inl rfl)

/- ═══════════════════════════════════════════════════════════════════════════
   Webhook signature validation: claim C9.
   ═══════════════════════════════════════════════════════════════════════════ -/

/-- Counterexample to claim C9 as stated: with no channel secret AND no access
  token configured, an inbound webhook request is accepted (HTTP 200) but its
  events are NOT processed — the handler returns before the event loop. -/
theorem webhook_accepted_but_unprocessed :
    (webhookHandler none none (fun _ _ => "") "body" none ["event1"]).status = 200 ∧
    (webhookHandler none none (fun _ _ => "") "body" none ["event1"]).processed = [] :=
  ⟨rfl, rfl⟩

/-- Claim C9 (amended): when the channel secret is not configured (absent or
  empty), validateLineSignature returns true for every body and every
  (possibly absent) signature, the webhook never rejects a request over its
  signature (status is always 200), and whenever the access token is
  configured every event of the request is processed with no verification. -/
theorem webhook_no_secret_skips_verification
    (hmacSha256 : String → String → String) (secret token : Option String)
    (body : String) (signature : Option String) (events : List String)
    (hsec : truthy secret = false) :
    validateLineSignature hmacSha256 secret body signature = true ∧
    (webhookHandler token secret hmacSha256 body signature events).status = 200 ∧
    (truthy token = true →
      (webhookHandler token secret hmacSha256 body signature events).processed =
        events) := by
  have hval : validateLineSignature hmacSha256 secret body signature = true := by
    rcases secret with _ | s
    · rfl
    · unfold truthy at hsec
      simp at hsec
      simp [validateLineSignature, hsec]
  refine ⟨hval, ?_, ?_⟩ <;>
    · unfold webhookHandler
      rcases ht : truthy token with _ | _ <;> simp [ht, hsec]

/-- Witness for claim C9 (amended): empty-string secret, configured token. -/
theorem webhook_no_secret_skips_verification_witness :
    validateLineSignature (fun _ _ => "sig") (some "") "payload" (some "bogus") =
        true ∧
    (webhookHandler (some "token0") (some "") (fun _ _ => "sig") "payload"
        (some "bogus") ["e1", "e2"]).status = 200 ∧
    (truthy (some "token0") = true →
      (webhookHandler (some "token0") (some "") (fun _ _ => "sig") "payload"
          (some "bogus") ["e1", "e2"]).processed = ["e1", "e2"]) :=
  webhook_no_secret_skips_verification (fun _ _ => "sig") (some "")
    (some "token0") "payload" (some "bogus") ["e1", "e2"] (by decide)

/- ═══════════════════════════════════════════════════════════════════════════
   Notification fan-out delivery log: claim C7.
   ═══════════════════════════════════════════════════════════════════════════ -/

/-- Counterexample to claim C7 as stated: a push attempt that goes out to the
  channel and fails appends zero delivery records, not one. -/
theorem linePush_failed_attempt_unlogged :
    (linePush (some "token0") true true false "2026-01-02T00:00:00Z"
        "U1234567890abcdef" ["hello"]).sent.isSome = true ∧
    (linePush (some "token0") true true false "2026-01-02T00:00:00Z"
        "U1234567890abcdef" ["hello"]).ok = false ∧
    (linePush (some "token0") true true false "2026-01-02T00:00:00Z"
        "U1234567890abcdef" ["hello"]).log.length = 0 :=
  ⟨rfl, rfl, rfl⟩

/-- Claim C7 (amended): linePush appends exactly one delivery record when the
  token is configured, the channel reports success and the Sheets log is
  reachable, and appends none otherwise — in particular a failed push attempt
  is not recorded. -/
theorem linePush_log_only_on_success (token : Option String)
    (docOk sheetOk pushOk : Bool) (nowIso userId : String)
    (messages : List String) :
    (linePush token docOk sheetOk pushOk nowIso userId messages).log.length =
      (if truthy token = true ∧ pushOk = true ∧ docOk = true ∧ sheetOk = true
       then 1 else 0) ∧
    (linePush token docOk sheetOk pushOk nowIso userId messages).ok =
      (truthy token && pushOk) := by
  unfold linePush
  rcases ht : truthy token with _ | _
  · simp [ht]
  · rcases Bool.eq_false_or_eq_true pushOk with hb | hb <;> subst hb
    · simp [ht]
      all_goals split_ifs with hd <;> simp_all
    · simp [ht]

/- ═══════════════════════════════════════════════════════════════════════════
   Snapshot recorder: claim C8.
   ═══════════════════════════════════════════════════════════════════════════ -/

theorem recordAttempts_mem (writeOk : RecCat → Bool) :
    ∀ (cats : List RecCat) (c : RecCat),
      c ∈ (recordAttempts writeOk cats).1 → c ∈ cats := by
  intro cats
  induction cats with
  | nil => simp [recordAttempts]
  | cons c0 cs ih =>
    intro c hc
    unfold recordAttempts at hc
    by_cases h0 : writeOk c0
    · rw [if_pos h0] at hc
      rcases List.mem_cons.1 hc with h | h
      · simp [h]
      · exact List.mem_cons_of_mem c0 (ih c h)
    · rw [if_neg h0] at hc
      simp at hc
      simp [hc]

theorem recordAttempts_none_iff (writeOk : RecCat → Bool) :
    ∀ cats : List RecCat,
      ((recordAttempts writeOk cats).2 = none ↔ ∀ c ∈ cats, writeOk c = true) := by
  intro cats
  induction cats with
  | nil => simp [recordAttempts]
  | cons c0 cs ih =>
    unfold recordAttempts
    by_cases h0 : writeOk c0
    · rw [if_pos h0]
      simp [ih, h0]
    · rw [if_neg h0]
      simp [h0]

theorem recordAttempts_complete (writeOk : RecCat → Bool) :
    ∀ cats : List RecCat, (recordAttempts writeOk cats).2 = none →
      (recordAttempts writeOk cats).1 = cats := by
  intro cats
  induction cats with
  | nil => simp [recordAttempts]
  | cons c0 cs ih =>
    unfold recordAttempts
    by_cases h0 : writeOk c0
    · rw [if_pos h0]
      intro h
      simp at h ⊢
      exact ih h
    · rw [if_neg h0]
      simp

theorem recordAttempts_fail (writeOk : RecCat → Bool) :
    ∀ (cats : List RecCat) (c : RecCat), (recordAttempts writeOk cats).2 = some c →
      writeOk c = false ∧
      ∃ pre suf, cats = pre ++ c :: suf ∧
        (recordAttempts writeOk cats).1 = pre ++ [c] ∧
        ∀ d ∈ pre, writeOk d = true := by
  intro cats
  induction cats with
  | nil => simp [recordAttempts]
  | cons c0 cs ih =>
    intro c
    unfold recordAttempts
    by_cases h0 : writeOk c0
    · rw [if_pos h0]
      intro h
      simp at h
      obtain ⟨hw, pre, suf, hcats, hatt, hpre⟩ := ih c h
      refine ⟨hw, c0 :: pre, suf, by simp [hcats], by simp [hatt], ?_⟩
      intro d hd
      rcases List.mem_cons.1 hd with hd | hd
      · rw [hd]
        exact h0
      · exact hpre d hd
    · rw [if_neg h0]
      intro h
      simp at h
      subst h
      exact ⟨by simp [h0], [], cs, rfl, rfl, by simp⟩

/-- Counterexample to claim C8 as stated: on a snapshot with all four
  categories present, a thrown write on the first category (solar wind)
  aborts the pass — the remaining three present categories are never
  attempted. -/
theorem recordData_first_failure_blocks_rest :
    presentCats (.ok (buildSnapshot 0 fullInput)) =
      [RecCat.solarWind, RecCat.kp, RecCat.iss, RecCat.proton] ∧
    recordData true (.ok (buildSnapshot 0 fullInput)) writeFail0 =
      ([RecCat.solarWind], some RecCat.solarWind) :=
  ⟨rfl, rfl⟩

/-- Claim C8 (amended): recordData is one guarded pass: absent categories are
  skipped silently, the present categories are attempted in source order, a
  pass with no write failure writes them all, and a write failure is caught
  (never propagated) but aborts the attempts for the categories after it. -/
theorem recordData_single_guarded_pass (data : SWResult)
    (writeOk : RecCat → Bool) :
    recordData false data writeOk = ([], none) ∧
    (∀ c ∈ (recordData true data writeOk).1, c ∈ presentCats data) ∧
    ((recordData true data writeOk).2 = none ↔
      ∀ c ∈ presentCats data, writeOk c = true) ∧
    ((recordData true data writeOk).2 = none →
      (recordData true data writeOk).1 = presentCats data) ∧
    (∀ c, (recordData true data writeOk).2 = some c →
      writeOk c = false ∧
      ∃ pre suf, presentCats data = pre ++ c :: suf ∧
        (recordData true data writeOk).1 = pre ++ [c] ∧
        ∀ d ∈ pre, writeOk d = true) := by
  refine ⟨rfl, ?_, ?_, ?_, ?_⟩
  · intro c hc
    exact recordAttempts_mem writeOk (presentCats data) c hc
  · exact recordAttempts_none_iff writeOk (presentCats data)
  · exact recordAttempts_complete writeOk (presentCats data)
  · intro c hc
    exact recordAttempts_fail writeOk (presentCats data) c hc

/-- Witness for claim C8 (amended), at the concrete failing pass of the
  counterexample: the solar-wind write fails, is the last attempt made, and
  every category before it succeeded. -/
theorem recordData_single_guarded_pass_witness :
    writeFail0 RecCat.solarWind = false ∧
    ∃ pre suf,
      presentCats (.ok (buildSnapshot 0 fullInput)) = pre ++ RecCat.solarWind :: suf ∧
      (recordData true (.ok (buildSnapshot 0 fullInput)) writeFail0).1 =
        pre ++ [RecCat.solarWind] ∧
      ∀ d ∈ pre, writeFail0 d = true :=
  (recordData_single_guarded_pass (.ok (buildSnapshot 0 fullInput))
      writeFail0).2.2.2.2 RecCat.solarWind rfl

/- ═══════════════════════════════════════════════════════════════════════════
   Subscription store upsert: claim C5.
   ═══════════════════════════════════════════════════════════════════════════ -/

theorem addSubscription_filter_length (userId subType name : String)
    (pushTime : Option String) (nowIso : String) :
    ∀ rows : List SubRow,
      ((addSubscription userId subType name pushTime nowIso rows).filter
          fun r => decide (r.userId = userId ∧ r.subType = subType)).length =
        (if (rows.filter
              fun r => decide (r.userId = userId ∧ r.subType = subType)).length = 0
         then 1
         else (rows.filter
                fun r => decide (r.userId = userId ∧ r.subType = subType)).length) := by
  intro rows
  induction rows with
  | nil => simp [addSubscription]
  | cons r0 rs ih =>
    unfold addSubscription
    by_cases hm : r0.userId = userId ∧ r0.subType = subType
    · rw [if_pos hm]
      simp [List.filter_cons, hm]
    · rw [if_neg hm]
      rw [List.filter_cons_of_neg (by simp [hm]),
        List.filter_cons_of_neg (by simp [hm])]
      exact ih

theorem addSubscription_filter_fields (userId subType name : String)
    (pushTime : Option String) (nowIso : String) :
    ∀ rows : List SubRow,
      ((rows.filter
          fun r => decide (r.userId = userId ∧ r.subType = subType)).length ≤ 1) →
      ∀ r ∈ (addSubscription userId subType name pushTime nowIso rows).filter
          fun r => decide (r.userId = userId ∧ r.subType = subType),
        r.status = "啟用" ∧ r.pushTime = pushTime.getD "" := by
  intro rows
  induction rows with
  | nil =>
    intro _ r hr
    simp [addSubscription] at hr
    simp [hr]
  | cons r0 rs ih =>
    intro hcount r hr
    unfold addSubscription at hr
    by_cases hm : r0.userId = userId ∧ r0.subType = subType
    · rw [if_pos hm] at hr
      rw [List.filter_cons_of_pos (by simp [hm])] at hr
      have hzero :
          rs.filter (fun r => decide (r.userId = userId ∧ r.subType = subType))
            = [] := by
        rw [List.filter_cons_of_pos (by simp [hm])] at hcount
        simp only [List.length_cons] at hcount
        have hlen :
            (rs.filter
              fun r => decide (r.userId = userId ∧ r.subType = subType)).length
              = 0 := by omega
        exact List.length_eq_zero.mp hlen
      rw [hzero] at hr
      simp at hr
      simp [hr]
    · rw [if_neg hm] at hr
      rw [List.filter_cons_of_neg (by simp [hm])] at hr
      rw [List.filter_cons_of_neg (by simp [hm])] at hcount
      exact ih hcount r hr

theorem addSubscription_length (userId subType name : String)
    (pushTime : Option String) (nowIso : String) :
    ∀ rows : List SubRow,
      (addSubscription userId subType name pushTime nowIso rows).length =
        (if (rows.filter
              fun r => decide (r.userId = userId ∧ r.subType = subType)).length = 0
         then rows.length + 1
         else rows.length) := by
  intro rows
  induction rows with
  | nil => simp [addSubscription]
  | cons r0 rs ih =>
    unfold addSubscription
    by_cases hm : r0.userId = userId ∧ r0.subType = subType
    · rw [if_pos hm]
      simp [List.filter_cons, hm]
    · rw [if_neg hm]
      rw [List.filter_cons_of_neg (by simp [hm])]
      simp only [List.length_cons, ih]
      split_ifs <;> omega

theorem subscribeFold_length_stable (userId subType : String) :
    ∀ (reqs : List (String × Option String × String)) (rows : List SubRow),
      1 ≤ (rows.filter
            fun r => decide (r.userId = userId ∧ r.subType = subType)).length →
      (reqs.foldl
          (fun acc q => addSubscription userId subType q.1 q.2.1 q.2.2 acc)
          rows).length = rows.length := by
  intro reqs
  induction reqs with
  | nil => intro rows _; rfl
  | cons q rest ih =>
    intro rows hge
    rw [List.foldl_cons]
    have hlen := addSubscription_length userId subType q.1 q.2.1 q.2.2 rows
    rw [if_neg (by omega)] at hlen
    have hcnt := addSubscription_filter_length userId subType q.1 q.2.1 q.2.2 rows
    rw [if_neg (by omega)] at hcnt
    rw [ih (addSubscription userId subType q.1 q.2.1 q.2.2 rows) (by omega)]
    exact hlen

/-- Claim C5: starting from a sheet with at most one row for the
  (subscriber, topic) pair, any non-empty sequence of subscribe operations
  for that pair leaves exactly one matching row, that row is active and
  carries the schedule of the latest subscribe, and at most one row was ever
  added (re-subscribing updates in place instead of duplicating). -/
theorem addSubscription_upsert_unique :
    ∀ (rows : List SubRow) (userId subType : String)
      (reqs : List (String × Option String × String)),
      ((rows.filter
          fun r => decide (r.userId = userId ∧ r.subType = subType)).length ≤ 1) →
      reqs ≠ [] →
      (((reqs.foldl
            (fun acc q => addSubscription userId subType q.1 q.2.1 q.2.2 acc)
            rows).filter
          fun r => decide (r.userId = userId ∧ r.subType = subType)).length = 1) ∧
      (∀ q, reqs.getLast? = some q →
        ∀ r ∈ (reqs.foldl
            (fun acc q => addSubscription userId subType q.1 q.2.1 q.2.2 acc)
            rows).filter
            fun r => decide (r.userId = userId ∧ r.subType = subType),
          r.status = "啟用" ∧ r.pushTime = q.2.1.getD "") ∧
      (reqs.foldl
          (fun acc q => addSubscription userId subType q.1 q.2.1 q.2.2 acc)
          rows).length ≤ rows.length + 1 := by
  intro rows userId subType reqs
  induction reqs generalizing rows with
  | nil => intro _ hne; exact absurd rfl hne
  | cons q rest ih =>
    intro hcount _
    rw [List.foldl_cons]
    have hc1 :
        (((addSubscription userId subType q.1 q.2.1 q.2.2 rows).filter
            fun r => decide (r.userId = userId ∧ r.subType = subType)).length
          = 1) := by
      rw [addSubscription_filter_length]
      split_ifs <;> omega
    have hlen1 :
        (addSubscription userId subType q.1 q.2.1 q.2.2 rows).length ≤
          rows.length + 1 := by
      rw [addSubscription_length]
      split_ifs <;> omega
    rcases rest with _ | ⟨q2, rest2⟩
    · simp only [List.foldl_nil]
      refine ⟨hc1, ?_, hlen1⟩
      intro q' hq' r hr
      rw [List.getLast?_singleton] at hq'
      injection hq' with hq'
      subst hq'
      exact addSubscription_filter_fields userId subType q.1 q.2.1 q.2.2 rows
        hcount r hr
    · have ihr := ih (addSubscription userId subType q.1 q.2.1 q.2.2 rows)
        (by omega) (by simp)
      refine ⟨ihr.1, ?_, ?_⟩
      · intro q' hq' r hr
        rw [List.getLast?_cons_cons] at hq'
        exact ihr.2.1 q' hq' r hr
      · have hstab := subscribeFold_length_stable userId subType (q2 :: rest2)
          (addSubscription userId subType q.1 q.2.1 q.2.2 rows) (by omega)
        rw [hstab]
        exact hlen1

/-- Witness for claim C5: subscribing the same pair twice with schedules
  08:00 then 20:00 on an empty sheet leaves exactly one matching row. -/
theorem addSubscription_upsert_unique_witness :
    ((([("每日太空氣象報告", some "08:00", "t1"),
        ("每日太空氣象報告", some "20:00", "t2")] :
          List (String × Option String × String)).foldl
        (fun acc q => addSubscription "U1" "daily" q.1 q.2.1 q.2.2 acc)
        ([] : List SubRow)).filter
      fun r => decide (r.userId = "U1" ∧ r.subType = "daily")).length = 1 :=
  (addSubscription_upsert_unique [] "U1" "daily"
    [("每日太空氣象報告", some "08:00", "t1"),
     ("每日太空氣象報告", some "20:00", "t2")] (by decide) (by decide)).1

/- ═══════════════════════════════════════════════════════════════════════════
   Scheduled dispatcher: claim C6.
   ═══════════════════════════════════════════════════════════════════════════ -/

theorem jsEndsWith_fmtTime :
    ∀ h, h < 24 → ∀ m, m < 60 →
      jsEndsWith (fmtTime h m) ":00" = decide (m = 0) := by decide

theorem jsSplit_fmtTime_head :
    ∀ h, h < 24 →
      ((jsSplit (fmtTime h 0) ':').headD "") ++ ":00" = pad2 h ++ ":00" := by decide

/-- Claim C6: a scheduled-delivery tick off the hour is a no-op (no refresh,
  nobody pushed); on the hour it pushes to exactly the active daily
  subscribers whose stored schedule equals the current hour label, in sheet
  order, and force-refreshes the reading cache exactly when that filtered
  list is non-empty. -/
theorem dailyPush_hour_gate (h m : Nat) (rows : List SubRow)
    (hh : h < 24) (hm : m < 60) :
    (m ≠ 0 → dailyPush (fmtTime h m) rows = ⟨[], false⟩) ∧
    (m = 0 →
      (dailyPush (fmtTime h m) rows).delivered =
        ((rows.filter fun r =>
            decide (r.subType = "daily" ∧ r.status = "啟用" ∧
              r.pushTime = pad2 h ++ ":00")).map SubRow.userId) ∧
      ((dailyPush (fmtTime h m) rows).refreshed = true ↔
        (rows.filter fun r =>
            decide (r.subType = "daily" ∧ r.status = "啟用" ∧
              r.pushTime = pad2 h ++ ":00")) ≠ [])) := by
  constructor
  · intro hm0
    have he : jsEndsWith (fmtTime h m) ":00" = false := by
      rw [jsEndsWith_fmtTime h hh m hm]
      simp [hm0]
    unfold dailyPush
    rw [he]
    rw [if_pos rfl]
  · intro hm0
    subst hm0
    have he : jsEndsWith (fmtTime h 0) ":00" = true := by
      rw [jsEndsWith_fmtTime h hh 0 (by omega)]
      simp
    have htarget :
        ((getSubscribersByType "daily" rows).filter
          fun s => decide (s.pushTime = pad2 h ++ ":00")) =
        (rows.filter fun r =>
            decide (r.subType = "daily" ∧ r.status = "啟用" ∧
              r.pushTime = pad2 h ++ ":00")).map
          fun r => (⟨r.userId, r.pushTime⟩ : Subscriber) := by
      unfold getSubscribersByType
      rw [List.map_filter]
      rw [List.filter_filter]
      refine congrArg _ (List.filter_congr ?_)
      intro r _
      by_cases h1 : r.subType = "daily" <;>
        by_cases h2 : r.status = "啟用" <;>
          by_cases h3 : r.pushTime = pad2 h ++ ":00" <;>
            simp [h1, h2, h3]
    unfold dailyPush
    rw [he]
    rw [if_neg (by simp)]
    dsimp only
    rw [jsSplit_fmtTime_head h hh, htarget]
    by_cases hB :
        (rows.filter fun r =>
          decide (r.subType = "daily" ∧ r.status = "啟用" ∧
            r.pushTime = pad2 h ++ ":00")) = []
    · rw [hB]
      simp
    · rw [if_neg (by simpa using hB)]
      constructor
      · rw [List.map_map]
        rfl
      · simpa using hB

/-- Witness for claim C6 at 08:03 (no-op) on a sheet with one 08:00 daily
  subscriber. -/
theorem dailyPush_hour_gate_witness :
    dailyPush (fmtTime 8 3)
        [⟨"Udaily1", "daily", "每日太空氣象報告", "t0", "08:00", "啟用", ""⟩] =
      ⟨[], false⟩ :=
  (dailyPush_hour_gate 8 3
      [⟨"Udaily1", "daily", "每日太空氣象報告", "t0", "08:00", "啟用", ""⟩]
      (by omega) (by omega)).1 (by omega)

/- ═══════════════════════════════════════════════════════════════════════════
   Alert evaluator: claims C1 and C2.
   ═══════════════════════════════════════════════════════════════════════════ -/

theorem checkKpAlert_spec (f : String → Bool) (st : LastAlerts) (now : Int)
    (sw : SWResult) (rows : List SubRow) :
    checkKpAlert f st now sw rows =
      (if fireCond .kp st now sw rows then
        ({ st with kp := now },
         [⟨now, .kp, (getSubscribersByType "aurora" rows).map
            fun u => (u.userId, f u.userId)⟩])
       else (st, [])) := by
  unfold checkKpAlert fireCond
  simp only [topicThreshold, lastOf, topicKey]
  split_ifs with h1 h2 h3 <;> first | rfl | tauto

theorem checkFlareAlert_spec (f : String → Bool) (st : LastAlerts) (now : Int)
    (sw : SWResult) (rows : List SubRow) :
    checkFlareAlert f st now sw rows =
      (if fireCond .flare st now sw rows then
        ({ st with flare := now },
         [⟨now, .flare, (getSubscribersByType "flare" rows).map
            fun u => (u.userId, f u.userId)⟩])
       else (st, [])) := by
  unfold checkFlareAlert fireCond
  simp only [topicThreshold, lastOf, topicKey]
  split_ifs with h1 h2 h3 <;> first | rfl | tauto

theorem fireCond_flare_kp_update (st : LastAlerts) (now t2 : Int)
    (sw : SWResult) (rows : List SubRow) :
    fireCond .flare { st with kp := t2 } now sw rows ↔
      fireCond .flare st now sw rows := by
  unfold fireCond
  simp [lastOf]

theorem checkAlerts_state_eq (f : String → Bool) (st : LastAlerts) (now : Int)
    (sw : SWResult) (rows : List SubRow) :
    (checkAlerts f st now sw rows).1 =
      { st with
          kp := if fireCond .kp st now sw rows then now else st.kp,
          flare := if fireCond .flare st now sw rows then now else st.flare } := by
  unfold checkAlerts
  rw [checkKpAlert_spec]
  by_cases hk : fireCond .kp st now sw rows
  · rw [if_pos hk]
    dsimp only
    rw [checkFlareAlert_spec]
    by_cases hf : fireCond .flare st now sw rows
    · rw [if_pos ((fireCond_flare_kp_update st now now sw rows).mpr hf),
        if_pos hk, if_pos hf]
    · rw [if_neg (by rw [fireCond_flare_kp_update]; exact hf),
        if_pos hk, if_neg hf]
  · rw [if_neg hk]
    dsimp only
    rw [checkFlareAlert_spec]
    by_cases hf : fireCond .flare st now sw rows
    · rw [if_pos hf, if_neg hk, if_pos hf]
    · rw [if_neg hf, if_neg hk, if_neg hf]

theorem checkAlerts_events_eq (f : String → Bool) (st : LastAlerts) (now : Int)
    (sw : SWResult) (rows : List SubRow) :
    (checkAlerts f st now sw rows).2 =
      (if fireCond .kp st now sw rows then
        [⟨now, .kp, (getSubscribersByType "aurora" rows).map
          fun u => (u.userId, f u.userId)⟩]
       else []) ++
      (if fireCond .flare st now sw rows then
        [⟨now, .flare, (getSubscribersByType "flare" rows).map
          fun u => (u.userId, f u.userId)⟩]
       else []) := by
  unfold checkAlerts
  rw [checkKpAlert_spec]
  by_cases hk : fireCond .kp st now sw rows
  · rw [if_pos hk]
    dsimp only
    rw [checkFlareAlert_spec]
    by_cases hf : fireCond .flare st now sw rows
    · rw [if_pos ((fireCond_flare_kp_update st now now sw rows).mpr hf),
        if_pos hk, if_pos hf]
    · rw [if_neg (by rw [fireCond_flare_kp_update]; exact hf),
        if_pos hk, if_neg hf]
  · rw [if_neg hk]
    dsimp only
    rw [checkFlareAlert_spec]
    by_cases hf : fireCond .flare st now sw rows
    · rw [if_pos hf, if_neg hk, if_pos hf]
    · rw [if_neg hf, if_neg hk, if_neg hf]

theorem eventTimes_append (t : AlertTopic) (a b : List AlertEvent) :
    eventTimes t (a ++ b) = eventTimes t a ++ eventTimes t b := by
  simp [eventTimes, List.filter_append]

theorem checkAlerts_eventTimes (f : String → Bool) (st : LastAlerts)
    (now : Int) (sw : SWResult) (rows : List SubRow) (t : AlertTopic) :
    eventTimes t (checkAlerts f st now sw rows).2 =
      if fireCond t st now sw rows then [now] else [] := by
  rw [checkAlerts_events_eq, eventTimes_append]
  cases t <;>
    · by_cases hk : fireCond .kp st now sw rows <;>
        by_cases hf : fireCond .flare st now sw rows <;>
          simp [hk, hf, eventTimes]

theorem checkAlerts_last_mono (f : String → Bool) (st : LastAlerts)
    (now : Int) (sw : SWResult) (rows : List SubRow) (t : AlertTopic) :
    lastOf st t ≤ lastOf (checkAlerts f st now sw rows).1 t := by
  have hCD : ALERT_COOLDOWN = 3600000 := by decide
  rw [checkAlerts_state_eq]
  cases t <;> simp only [lastOf] <;> split_ifs with hfire <;>
    first
      | exact le_refl _
      | · have h2 := hfire.2.1
          simp only [lastOf] at h2
          omega

theorem runCheckAlerts_eventTimes_lb :
    ∀ (ps : List AlertPass) (st : LastAlerts) (t : AlertTopic) (x : Int),
      x ∈ eventTimes t (runCheckAlerts st ps).2 →
      lastOf st t + ALERT_COOLDOWN < x := by
  intro ps
  induction ps with
  | nil =>
    intro st t x hx
    simp [runCheckAlerts, eventTimes] at hx
  | cons p ps ih =>
    intro st t x hx
    unfold runCheckAlerts at hx
    rw [eventTimes_append, List.mem_append] at hx
    rcases hx with hx | hx
    · rw [checkAlerts_eventTimes] at hx
      split_ifs at hx with hfire
      · simp at hx
        subst hx
        have h2 := hfire.2.1
        omega
      · simp at hx
    · have hlb := ih _ t x hx
      have hmono := checkAlerts_last_mono p.pushResult st p.time p.sw p.rows t
      omega

theorem runCheckAlerts_pairwise :
    ∀ (ps : List AlertPass) (st : LastAlerts) (t : AlertTopic),
      (eventTimes t (runCheckAlerts st ps).2).Pairwise
        (fun t1 t2 => t1 + ALERT_COOLDOWN < t2) := by
  intro ps
  induction ps with
  | nil =>
    intro st t
    simp [runCheckAlerts, eventTimes]
  | cons p ps ih =>
    intro st t
    unfold runCheckAlerts
    rw [eventTimes_append, List.pairwise_append]
    refine ⟨?_, ih _ t, ?_⟩
    · rw [checkAlerts_eventTimes]
      split_ifs <;> simp
    · intro a ha b hb
      rw [checkAlerts_eventTimes] at ha
      split_ifs at ha with hfire
      · simp at ha
        subst ha
        have hlb := runCheckAlerts_eventTimes_lb ps _ t b hb
        have hst :
            lastOf (checkAlerts p.pushResult st p.time p.sw p.rows).1 t
              = p.time := by
          rw [checkAlerts_state_eq]
          cases t <;> simp [lastOf, hfire]
        rw [hst] at hlb
        exact hlb
      · simp at ha

/-- Claim C1: in any run of alert-check passes, the dispatch times of one
  topic are pairwise separated by more than the 1-hour cooldown — no second
  alert of a topic within an hour of the previous one, however many passes
  see the threshold crossed; and re-arming is a pure time comparison: any
  pass whose time exceeds the stored last-dispatch timestamp by more than an
  hour fires again as soon as threshold and subscribers are there, with no
  other re-arming event. -/
theorem alert_cooldown_window :
    (∀ (st : LastAlerts) (ps : List AlertPass) (t : AlertTopic),
      (eventTimes t (runCheckAlerts st ps).2).Pairwise
        (fun t1 t2 => t1 + ALERT_COOLDOWN < t2)) ∧
    (∀ (f : String → Bool) (st : LastAlerts) (now : Int) (sw : SWResult)
       (rows : List SubRow) (t : AlertTopic),
      topicThreshold t sw = true →
      lastOf st t + ALERT_COOLDOWN < now →
      (getSubscribersByType (topicKey t) rows).length > 0 →
      eventTimes t (checkAlerts f st now sw rows).2 = [now]) := by
  constructor
  · intro st ps t
    exact runCheckAlerts_pairwise ps st t
  · intro f st now sw rows t h1 h2 h3
    rw [checkAlerts_eventTimes]
    rw [if_pos ⟨h1, by omega, h3⟩]

/-- Witness for claim C1: a topic whose last dispatch was at time 0 is armed
  again at time 7200000 (2 h later) and fires on a Kp 6 snapshot with one
  active aurora subscriber. -/
theorem alert_cooldown_window_witness :
    eventTimes AlertTopic.kp
      (checkAlerts (fun _ => true) ⟨0, 0, 0, 0⟩ 7200000
        (.ok (buildSnapshot 0 stormInput)) auroraRows).2 = [7200000] :=
  alert_cooldown_window.2 (fun _ => true) ⟨0, 0, 0, 0⟩ 7200000
    (.ok (buildSnapshot 0 stormInput)) auroraRows AlertTopic.kp
    (by decide) (by decide) (by decide)

theorem kpAlertCond_iff (sw : SWResult) :
    kpAlertCond sw = true ↔ ∃ k, kpOf sw = some k ∧ k.kp ≥ 5 := by
  cases sw <;> simp [kpAlertCond, kpOf]

theorem flareAlertCond_iff (sw : SWResult) :
    flareAlertCond sw = true ↔ ∃ x, xrayOf sw = some x ∧ x.flareClass = "X" := by
  cases sw <;> simp [flareAlertCond, xrayOf]

theorem fireCond_kp_iff (st : LastAlerts) (now : Int) (sw : SWResult)
    (rows : List SubRow) :
    fireCond .kp st now sw rows ↔
      ((∃ k, kpOf sw = some k ∧ k.kp ≥ 5) ∧ st.kp + ALERT_COOLDOWN < now ∧
        getSubscribersByType "aurora" rows ≠ []) := by
  unfold fireCond
  simp only [topicThreshold, lastOf, topicKey]
  rw [kpAlertCond_iff]
  constructor
  · rintro ⟨h1, h2, h3⟩
    refine ⟨h1, by omega, ?_⟩
    rw [← List.length_pos]
    omega
  · rintro ⟨h1, h2, h3⟩
    refine ⟨h1, by omega, ?_⟩
    have := List.length_pos.mpr h3
    omega

theorem fireCond_flare_iff (st : LastAlerts) (now : Int) (sw : SWResult)
    (rows : List SubRow) :
    fireCond .flare st now sw rows ↔
      ((∃ x, xrayOf sw = some x ∧ x.flareClass = "X") ∧
        st.flare + ALERT_COOLDOWN < now ∧
        getSubscribersByType "flare" rows ≠ []) := by
  unfold fireCond
  simp only [topicThreshold, lastOf, topicKey]
  rw [flareAlertCond_iff]
  constructor
  · rintro ⟨h1, h2, h3⟩
    refine ⟨h1, by omega, ?_⟩
    rw [← List.length_pos]
    omega
  · rintro ⟨h1, h2, h3⟩
    refine ⟨h1, by omega, ?_⟩
    have := List.length_pos.mpr h3
    omega

theorem ite_singleton_ne_nil (c : Prop) [Decidable c] (x : Int) :
    ((if c then [x] else ([] : List Int)) ≠ []) ↔ c := by
  split_ifs with h <;> simp [h]

/-- Claim C2: a pass dispatches the geomagnetic topic (events pushed and the
  cooldown timestamp set to the pass time) exactly when the snapshot carries
  Kp ≥ 5, the cooldown has elapsed and at least one active aurora subscriber
  exists; the flare topic fires exactly when the flare class letter is X
  under the same conditions; and the timestamp recording is identical for
  every push-outcome oracle, i.e. not contingent on push success. -/
theorem checkAlerts_fire_characterization (f g : String → Bool)
    (st : LastAlerts) (now : Int) (sw : SWResult) (rows : List SubRow) :
    ((eventTimes .kp (checkAlerts f st now sw rows).2 ≠ []) ↔
      ((∃ k, kpOf sw = some k ∧ k.kp ≥ 5) ∧ st.kp + ALERT_COOLDOWN < now ∧
        getSubscribersByType "aurora" rows ≠ [])) ∧
    ((eventTimes .flare (checkAlerts f st now sw rows).2 ≠ []) ↔
      ((∃ x, xrayOf sw = some x ∧ x.flareClass = "X") ∧
        st.flare + ALERT_COOLDOWN < now ∧
        getSubscribersByType "flare" rows ≠ [])) ∧
    ((checkAlerts f st now sw rows).1.kp =
      if eventTimes .kp (checkAlerts f st now sw rows).2 ≠ [] then now
      else st.kp) ∧
    ((checkAlerts f st now sw rows).1.flare =
      if eventTimes .flare (checkAlerts f st now sw rows).2 ≠ [] then now
      else st.flare) ∧
    (checkAlerts g st now sw rows).1 = (checkAlerts f st now sw rows).1 := by
  refine ⟨?_, ?_, ?_, ?_, ?_⟩
  · rw [checkAlerts_eventTimes, ite_singleton_ne_nil]
    exact fireCond_kp_iff st now sw rows
  · rw [checkAlerts_eventTimes, ite_singleton_ne_nil]
    exact fireCond_flare_iff st now sw rows
  · rw [checkAlerts_state_eq]
    simp only [checkAlerts_eventTimes, ite_singleton_ne_nil]
  · rw [checkAlerts_state_eq]
    simp only [checkAlerts_eventTimes, ite_singleton_ne_nil]
  · rw [checkAlerts_state_eq, checkAlerts_state_eq]

/-- Witness for claim C2: the recorded cooldown state after a firing pass is
  the same whether every push succeeds or every push fails. -/
theorem checkAlerts_fire_characterization_witness :
    (checkAlerts (fun _ => false) ⟨0, 0, 0, 0⟩ 7200000
        (.ok (buildSnapshot 0 stormInput)) auroraRows).1 =
      (checkAlerts (fun _ => true) ⟨0, 0, 0, 0⟩ 7200000
        (.ok (buildSnapshot 0 stormInput)) auroraRows).1 :=
  (checkAlerts_fire_characterization (fun _ => true) (fun _ => false)
    ⟨0, 0, 0, 0⟩ 7200000 (.ok (buildSnapshot 0 stormInput))
    auroraRows).2.2.2.2
